import Mathlib

/-!
Shallow embedding of libpkg's SAT-based dependency solver
(src/libpkg/pkg_solve.c) and verification of its specification claims.

Modelling conventions:
- Variables live in a flat table (`Problem.vars`, a `List PkgVar`) and are
  referred to by index, mirroring the contiguous `problem->variables` array.
- Clauses (`pkg_solve_rule` / its `pkg_solve_item` list) live in an arena
  (`Problem.clauses`) and are referred to by index; per-variable rule lists
  (`PkgVar.rules`) hold clause indices, prepend order preserved, mirroring the
  `_pkg_solve_var_rule` linked lists.  The C code prepends rules to
  `problem->rules`; here new clauses are appended to the arena so that the
  indices held by the variables stay stable (the arena order is the reverse of
  the C list order; no claim depends on that order).
- `nitems` of a clause is the head item's stored count, which always equals the
  length of the item list; it is modelled as `items.length`.
- `nresolved` is stored in the head `pkg_solve_item` and is modelled as a
  per-clause counter.
- Strings (unique ids, digests, shlib names) are modelled as `Nat`.
- The universe (`pkg_jobs->universe`) is a list of chains of units plus the
  provides index; requests are identified by the (uid, digest) pair of the
  requested unit (the C code keys them by unit pointer).
- Loops whose termination is not structural carry an explicit fuel argument;
  running out of fuel yields `none`.
-/

/-- PKG_JOBS_* job types as far as the solver consults them
(`PKG_JOBS_UPGRADE` in `pkg_solve_initial_guess`, `PKG_JOBS_FETCH` in
`pkg_solve_insert_res_job`); all remaining job types behave alike. -/
inductive JobType where
  | install
  | upgrade
  | fetch
  | del
  | other
deriving Repr, DecidableEq, Inhabited

/-- PKG_CONFLICT_REMOTE_LOCAL / PKG_CONFLICT_REMOTE_REMOTE. -/
inductive ConflictType where
  | remoteLocal
  | remoteRemote
deriving Repr, DecidableEq, Inhabited

/-- One candidate unit of the universe (`pkg_job_universe_item` together with
the `pkg` fields the solver reads: uid, digest, type, deps, conflicts,
required shlibs). `installed` models `pkg->type == PKG_INSTALLED`. -/
structure UnivPkg where
  uid : Nat
  digest : Nat
  installed : Bool
  deps : List Nat
  conflicts : List (ConflictType × Nat)
  shlibs : List Nat
deriving Repr, DecidableEq, Inhabited

/-- A literal: `pkg_solve_item`'s variable reference and `inverse` flag. -/
structure Lit where
  varIdx : Nat
  inverse : Bool
deriving Repr, DecidableEq, Inhabited

/-- A clause (`pkg_solve_rule`, i.e. its list of `pkg_solve_item`s). The
`nresolved` counter lives in the head item in C; it is per-clause here. -/
structure Clause where
  items : List Lit
  nresolved : Nat
deriving Repr, DecidableEq, Inhabited

/-- A solver variable (`pkg_solve_variable`). `unit` is the referenced
universe item; `uid`/`digest` are the copies made by
`pkg_solve_variable_set`. `unitAlone` models the chain test
`var->unit->next == NULL && var->unit->prev == var->unit` (the unit is the
only member of its universe chain). `next` is the index of the next variable
of the same uid chain (`var->next`), `rules` the clause-index list, `nrules`
the counter the C code keeps next to it. -/
structure PkgVar where
  unit : UnivPkg
  uid : Nat
  digest : Nat
  unitAlone : Bool
  next : Option Nat
  toInstall : Bool
  resolved : Bool
  rules : List Nat
  nrules : Nat
deriving Repr, DecidableEq, Inhabited

/-- The problem (`pkg_solve_problem`), with the fields of `problem->j` that
the solver reads folded in (job type, provides index, requests). `byUid`
models the `variables_by_uid` hash: uid mapped to the index of the chain
head, in insertion order (HASH_ITER iterates insertion order for uthash). -/
structure Problem where
  jobType : JobType
  provides : List (Nat × List Nat)
  reqAdd : List (Nat × Nat)
  reqDel : List (Nat × Nat)
  vars : List PkgVar
  byUid : List (Nat × Nat)
  clauses : List Clause
  rulesCount : Nat
deriving Repr, DecidableEq, Inhabited

/-- The universe handed to `pkg_solve_jobs_to_sat`: chains of units grouped
by uid (iteration order of `j->universe->items`) plus the provides index
(shlib name mapped to the uids of the providing units; the C walks each
provide entry to its universe-chain head, whose uid identifies the chain). -/
structure PkgUniverse where
  chains : List (List UnivPkg)
  provides : List (Nat × List Nat)
deriving Repr, DecidableEq, Inhabited

/-- Fetch the variable at index `i` (out-of-range reads give `default`;
the C never reads out of range in the modelled paths). -/
def get_var (p : Problem) (i : Nat) : PkgVar :=
  p.vars.getD i default

/-- Store a variable at index `i`. -/
def set_var (p : Problem) (i : Nat) (v : PkgVar) : Problem :=
  { p with vars := p.vars.set i v }

/-- PKG_SOLVE_CHECK_ITEM: a literal is satisfied iff
`var->to_install ^ inverse`. -/
def pkg_solve_check_item (p : Problem) (it : Lit) : Bool :=
  xor (get_var p it.varIdx).toInstall it.inverse

/-- A clause is satisfied by an assignment iff some literal is satisfied
(used to state properties; the C has no single function for this). -/
def clause_sat (vs : List PkgVar) (c : Clause) : Bool :=
  c.items.any (fun it => xor (vs.getD it.varIdx default).toInstall it.inverse)

/-- LL_FOREACH over a uid chain starting at a variable index, following the
`next` links; fueled (chains are finite and acyclic in every built problem). -/
def chain_from_aux (vars : List PkgVar) : Nat → Option Nat → List Nat
  | 0, _ => []
  | _, none => []
  | Nat.succ f, some i => i :: chain_from_aux vars f ((vars.getD i default).next)

/-- The uid chain containing (and starting at) variable index `i`. -/
def chain_from (p : Problem) (i : Nat) : List Nat :=
  chain_from_aux p.vars (p.vars.length + 1) (some i)

/-- The successors of variable `i` in its uid chain (`var->next` on). -/
def chain_succs (p : Problem) (i : Nat) : List Nat :=
  match (get_var p i).next with
  | none => []
  | some j => chain_from p j

/-- pkg_solve_update_var_resolved (lines 105-113): bump `nresolved` on every
clause of the variable's rule list. This is the only place `nresolved` is
ever written after clause building; there is no decrementing counterpart. -/
def pkg_solve_update_var_resolved (p : Problem) (vi : Nat) : Problem :=
  { p with
    clauses := (get_var p vi).rules.foldl
      (fun cs ci =>
        cs.set ci { cs.getD ci default with
                      nresolved := (cs.getD ci default).nresolved + 1 })
      p.clauses }

/-- A propagation assignment (lines 257-260 and 316-322): set `to_install`,
mark resolved, and run `pkg_solve_update_var_resolved`. -/
def assign_var (p : Problem) (vi : Nat) (val : Bool) : Problem :=
  pkg_solve_update_var_resolved
    (set_var p vi { get_var p vi with toInstall := val, resolved := true }) vi

/-- The inline guess assignment of `pkg_solve_sat_problem` (lines 447-456):
set `to_install` and `resolved` only; note it does not touch the `nresolved`
counters. -/
def guess_var (p : Problem) (vi : Nat) (val : Bool) : Problem :=
  set_var p vi { get_var p vi with toInstall := val, resolved := true }

/-- pkg_solve_undo_guess (lines 364-377): for every variable recorded in the
level's implication graph, clear `resolved`; the graph nodes behind the head
are freed and the head is kept as a sentinel (handled at the call site).
Nothing here touches the `nresolved` counters of the variables' clauses. -/
def pkg_solve_undo_guess (p : Problem) (graph : List Nat) : Problem :=
  graph.foldl (fun st vi => set_var st vi { get_var st vi with resolved := false }) p

/-- PKG_SOLVE_VAR_NEXT (line 99): `(e) == NULL ? &a[0] : (e + 1)`, with the
pointer modelled as an optional index into the variable array. -/
def pkg_solve_var_next (e : Option Nat) : Option Nat :=
  match e with
  | none => some 0
  | some i => some (i + 1)

/-- The pointer produced by the k-th evaluation of PKG_SOLVE_VAR_NEXT in the
loops `while ((var = PKG_SOLVE_VAR_NEXT(problem->variables, var)))`
(lines 592, 1077, 1212), starting from `var = NULL`. -/
def var_next_iter : Nat → Option Nat
  | 0 => none
  | Nat.succ k => pkg_solve_var_next (var_next_iter k)

/-- The conflict sweep of `pkg_solve_propagate_units` for one variable
(lines 196-239): some rule of the variable has `nresolved == nitems` and no
resolved literal satisfies it. -/
def var_has_conflict (p : Problem) (vi : Nat) : Bool :=
  (get_var p vi).rules.any (fun ci =>
    let c := p.clauses.getD ci default
    c.nresolved == c.items.length &&
      !(c.items.any (fun it => (get_var p it.varIdx).resolved && pkg_solve_check_item p it)))

/-- The unit sweep of `pkg_solve_propagate_units` for one variable
(lines 240-252): the first rule with `nresolved == nitems - 1` whose
resolved literals are all unsatisfied. -/
def find_unit_rule (p : Problem) (vi : Nat) : Option Nat :=
  (get_var p vi).rules.find? (fun ci =>
    let c := p.clauses.getD ci default
    c.nresolved + 1 == c.items.length &&
      !(c.items.any (fun it => (get_var p it.varIdx).resolved && pkg_solve_check_item p it)))

/-- The `check_again` loop of `pkg_solve_propagate_units` for one variable
(lines 194-282): sweep for conflicts, then for a unit; on a unit, assign the
first unresolved literal of the clause (`to_install := !inverse`, mark
resolved, bump counters), append it to the implication graph when one is
supplied (`DL_APPEND`), and restart the sweeps.  Returns the state, the
graph, the accumulated `solved_vars`, and false on conflict; `none` models
running out of fuel or the `assert(resolved > 0)` failing (no unresolved
literal found in a supposed unit clause). -/
def propagate_var_loop :
    Nat → Problem → Option (List Nat) → Nat → Nat →
    Option (Problem × Option (List Nat) × Nat × Bool)
  | 0, _, _, _, _ => none
  | Nat.succ f, p, graph, vi, solved =>
    if var_has_conflict p vi then some (p, graph, solved, false)
    else
      match find_unit_rule p vi with
      | none => some (p, graph, solved, true)
      | some ci =>
        let c := p.clauses.getD ci default
        match c.items.find? (fun it => !(get_var p it.varIdx).resolved) with
        | none => none
        | some it =>
          let p2 := assign_var p it.varIdx (!it.inverse)
          let graph2 := graph.map (fun g => g ++ [it.varIdx])
          propagate_var_loop f p2 graph2 vi (solved + 1)

/-- One full pass of `pkg_solve_propagate_units` over the variable table
(the `for (i = 0; i < problem->nvars; i ++)` loop, lines 192-283), starting
at index `i`. -/
def propagate_pass :
    Nat → Problem → Option (List Nat) → Nat → Nat →
    Option (Problem × Option (List Nat) × Nat × Bool)
  | 0, _, _, _, _ => none
  | Nat.succ f, p, graph, i, solved =>
    if i < p.vars.length then
      match propagate_var_loop f p graph i solved with
      | none => none
      | some (p2, g2, s2, ok) =>
        if ok then propagate_pass f p2 g2 (i + 1) s2
        else some (p2, g2, s2, false)
    else some (p, graph, solved, true)

/-- pkg_solve_propagate_units (lines 178-287): repeat passes until one makes
no assignment (`do { ... } while (solved_vars > 0)`); false on conflict.
The `propagated` out-counter and the `top_level` error message are not
modelled (they do not change the returned state or value). -/
def pkg_solve_propagate_units :
    Nat → Problem → Option (List Nat) →
    Option (Problem × Option (List Nat) × Bool)
  | 0, _, _ => none
  | Nat.succ f, p, graph =>
    match propagate_pass f p graph 0 0 with
    | none => none
    | some (p2, g2, s2, ok) =>
      if !ok then some (p2, g2, false)
      else if s2 > 0 then pkg_solve_propagate_units f p2 g2
      else some (p2, g2, true)

/-- pkg_solve_propagate_pure (lines 293-329): walk every variable; an
independent variable (`nrules == 0`) keeps its installed state and is marked
resolved (without touching any counter: it has no rules); otherwise every
unary rule with `nresolved == 0` forces its literal. -/
def pkg_solve_propagate_pure (p : Problem) : Problem :=
  (List.range p.vars.length).foldl
    (fun st i =>
      let v := get_var st i
      if v.nrules == 0 then
        set_var st i { v with toInstall := v.unit.installed, resolved := true }
      else
        v.rules.foldl
          (fun st2 ci =>
            let c := st2.clauses.getD ci default
            if c.items.length == 1 && c.nresolved == 0 then
              match c.items with
              | [l] => assign_var st2 l.varIdx (!l.inverse)
              | _ => st2
            else st2)
          st)
    p

/-- pkg_solve_initial_guess (lines 334-358). -/
def pkg_solve_initial_guess (p : Problem) (vi : Nat) : Bool :=
  let v := get_var p vi
  if p.jobType == JobType.upgrade then
    if v.unit.installed then v.unitAlone
    else !v.unitAlone
  else
    v.unit.installed

/-- A decision frame (`struct _solver_tree_elt`): pivot variable index,
`guess` (-1 modelled as `none`), flip counter `inverses`, and the level's
implication graph. -/
structure Frame where
  varIdx : Nat
  guess : Option Bool
  inverses : Nat
  graph : List Nat
deriving Repr, DecidableEq, Inhabited

/-- The main DPLL loop of `pkg_solve_sat_problem` (lines 419-505).  The
doubly-linked `solver_tree` is modelled as a zipper: `pre` holds the frames
before `elt` in order, `cur` holds `elt` and the frames after it; `elt` is
NULL iff `cur` is empty (new frames are DL_APPENDed at the end).  `i` is the
loop index, `backtrack` and `tvar` the flags of the same names.  The C
frees the failing frame's graph but keeps the frame; UNSAT is declared when
the conflicting frame is the head of the tree
(`elt == NULL || elt->prev->next == NULL`). -/
def sat_loop :
    Nat → Problem → List Frame → List Frame → Nat → Bool → Nat →
    Option (Problem × Bool)
  | 0, _, _, _, _, _, _ => none
  | Nat.succ f, p, pre, cur, i, backtrack, tvar =>
    if i < p.vars.length then
      if (get_var p i).resolved then sat_loop f p pre cur (i + 1) backtrack tvar
      else
        let vi := if backtrack then tvar else i
        let iNext := if backtrack then i else i + 1
        let cur1 :=
          if cur.isEmpty then
            [({ varIdx := vi, guess := none, inverses := 0, graph := [] } : Frame)]
          else cur
        let elt := cur1.headD default
        let freeVar := elt.guess.isNone
        let p1 :=
          match elt.guess with
          | none => guess_var p vi (pkg_solve_initial_guess p vi)
          | some g => guess_var p vi (!g)
        let elt1 :=
          match elt.guess with
          | none => elt
          | some _ => { elt with inverses := elt.inverses + 1 }
        let g1 := elt1.graph ++ [vi]
        match pkg_solve_propagate_units f p1 (some g1) with
        | none => none
        | some (p2, og2, ok) =>
          if ok then
            let elt2 := { elt1 with guess := some (get_var p2 vi).toInstall,
                                    graph := og2.getD [] }
            sat_loop f p2 (pre ++ [elt2]) cur1.tail iNext false tvar
          else
            let g2 := og2.getD []
            let p3 := pkg_solve_undo_guess p2 g2
            let g3 := g2.take 1
            if freeVar then
              let p4 := set_var p3 vi
                { get_var p3 vi with toInstall := !(get_var p3 vi).toInstall }
              match pkg_solve_propagate_units f p4 (some g3) with
              | none => none
              | some (p5, og5, rc) =>
                if rc then
                  let elt2 := { elt1 with guess := some (get_var p5 vi).toInstall,
                                          graph := og5.getD [] }
                  sat_loop f p5 (pre ++ [elt2]) cur1.tail iNext false tvar
                else
                  if pre.isEmpty then some (p5, false)
                  else
                    let eltReset := { elt1 with inverses := 0, graph := [], guess := none }
                    let prevFrame := pre.getLastD default
                    sat_loop f p5 pre.dropLast (prevFrame :: eltReset :: cur1.tail)
                      iNext true prevFrame.varIdx
            else
              if pre.isEmpty then some (p3, false)
              else
                let eltReset := { elt1 with inverses := 0, graph := [], guess := none }
                let prevFrame := pre.getLastD default
                sat_loop f p3 pre.dropLast (prevFrame :: eltReset :: cur1.tail)
                  iNext true prevFrame.varIdx
    else some (p, true)

/-- pkg_solve_sat_problem (lines 386-515): the `rules_count == 0` early
return, the pure-clause seed and top-level unit propagation, then the DPLL
loop. -/
def pkg_solve_sat_problem (fuel : Nat) (p : Problem) : Option (Problem × Bool) :=
  if p.rulesCount == 0 then some (p, true)
  else
    let p1 := pkg_solve_propagate_pure p
    match pkg_solve_propagate_units fuel p1 none with
    | none => none
    | some (p2, _, ok) =>
      if ok then sat_loop fuel p2 [] [] 0 false 0
      else some (p2, false)

/-- Allocate a new clause (a `pkg_solve_rule` with its prepended item list
already built) in the arena and return its index. `nresolved` starts at 0. -/
def add_clause (p : Problem) (items : List Lit) : Problem × Nat :=
  ({ p with clauses := p.clauses ++ [{ items := items, nresolved := 0 }] },
   p.clauses.length)

/-- Look up a uid in `variables_by_uid` (HASH_FIND_STR), giving the chain
head's index. -/
def lookup_uid (p : Problem) (uid : Nat) : Option Nat :=
  (p.byUid.find? (fun pr => pr.1 == uid)).map (fun pr => pr.2)

/-- Look up a shlib name in the provides index (HASH_FIND_STR on
`problem->j->universe->provides`). -/
def lookup_provides (p : Problem) (shlib : Nat) : Option (List Nat) :=
  (p.provides.find? (fun pr => pr.1 == shlib)).map (fun pr => pr.2)

/-- pkg_solve_add_var_rules (lines 601-626): walk the chain from `vi` (or
just `vi` when `iterate_vars` is false); on each variable add `cnt` (the
caller's `nrules` argument) to `nrules` and prepend one reference to the
clause (`LL_PREPEND(tvar->rules, head)`). -/
def pkg_solve_add_var_rules (p : Problem) (vi ci cnt : Nat) (iterateVars : Bool) :
    Problem :=
  let idxs := if iterateVars then chain_from p vi else [vi]
  idxs.foldl
    (fun st j =>
      set_var st j { get_var st j with
                       nrules := (get_var st j).nrules + cnt,
                       rules := ci :: (get_var st j).rules })
    p

/-- pkg_solve_add_depend_rule (lines 666-712): if the dependency uid has no
variable chain, skip (EPKG_END); otherwise build `(!A | B1 | ... | Bk)`
(RULE_ITEM_PREPEND puts the last-added literal first), attach it to every
member of the dependency chain and to `A` itself, and count it. -/
def pkg_solve_add_depend_rule (p : Problem) (vi : Nat) (depUid : Nat) : Problem :=
  match lookup_uid p depUid with
  | none => p
  | some depHead =>
    let chain := chain_from p depHead
    let items := chain.foldl (fun acc j => ({ varIdx := j, inverse := false } : Lit) :: acc)
      [({ varIdx := vi, inverse := true } : Lit)]
    let cnt := 1 + chain.length
    let built := add_clause p items
    let p2 := pkg_solve_add_var_rules built.1 depHead built.2 cnt true
    let p3 := pkg_solve_add_var_rules p2 vi built.2 cnt false
    { p3 with rulesCount := p3.rulesCount + 1 }

/-- pkg_solve_add_conflict_rule (lines 714-781): for each member of the
conflicting uid's chain, skip members that do not match the conflict kind
(remote-local: keep only the opposite type of `pkg`; remote-remote: skip if
either side is installed), else emit the binary clause `(!A | !Bx)` and
attach it to both variables. -/
def pkg_solve_add_conflict_rule (p : Problem) (pkgInstalled : Bool) (vi : Nat)
    (ctype : ConflictType) (confUid : Nat) : Problem :=
  match lookup_uid p confUid with
  | none => p
  | some confHead =>
    (chain_from p confHead).foldl
      (fun st cvi =>
        let cvar := get_var st cvi
        let skip :=
          match ctype with
          | ConflictType.remoteLocal =>
            if pkgInstalled then cvar.unit.installed else !cvar.unit.installed
          | ConflictType.remoteRemote => pkgInstalled || cvar.unit.installed
        if skip then st
        else
          let built := add_clause st
            [({ varIdx := cvi, inverse := true } : Lit),
             ({ varIdx := vi, inverse := true } : Lit)]
          let st2 := { built.1 with rulesCount := built.1.rulesCount + 1 }
          let st3 := pkg_solve_add_var_rules st2 cvi built.2 2 false
          pkg_solve_add_var_rules st3 vi built.2 2 false)
      p

/-- pkg_solve_handle_provide (lines 633-664): walk the provide entry to its
universe-chain head (all members share the uid), find the variable chain for
that uid, and prepend one positive literal per chain member, counting each. -/
def pkg_solve_handle_provide (p : Problem) (acc : List Lit × Nat) (uid : Nat) :
    List Lit × Nat :=
  match lookup_uid p uid with
  | none => acc
  | some h =>
    (chain_from p h).foldl
      (fun a j => (({ varIdx := j, inverse := false } : Lit) :: a.1, a.2 + 1)) acc

/-- pkg_solve_add_require_rule (lines 783-837): look the shlib up in the
provides index; when absent, nothing is built at all.  Otherwise build
`(!A | P1 | P2 | ...)` over all chain members of all providers; if no
provider literal materialised (`cnt <= 1`) the clause is freed and
discarded; otherwise it is attached to `A`'s rule list only
(`iterate_vars = false`) and counted. -/
def pkg_solve_add_require_rule (p : Problem) (vi : Nat) (shlib : Nat) : Problem :=
  match lookup_provides p shlib with
  | none => p
  | some prs =>
    let built := prs.foldl (pkg_solve_handle_provide p)
      ([({ varIdx := vi, inverse := true } : Lit)], 1)
    if built.2 > 1 then
      let made := add_clause p built.1
      let p2 := pkg_solve_add_var_rules made.1 vi made.2 built.2 false
      { p2 with rulesCount := p2.rulesCount + 1 }
    else p

/-- pkg_solve_add_unary_rule (lines 839-866): a single-literal request
clause, attached to its variable only. -/
def pkg_solve_add_unary_rule (p : Problem) (vi : Nat) (inverse : Bool) : Problem :=
  let built := add_clause p [({ varIdx := vi, inverse := inverse } : Lit)]
  let p2 := pkg_solve_add_var_rules built.1 vi built.2 1 false
  { p2 with rulesCount := p2.rulesCount + 1 }

/-- pkg_solve_add_chain_rule (lines 868-904): for every successor of `vi`
in its uid chain (`LL_FOREACH(var->next, curvar)`) emit the binary clause
`(!Ax | !Ay)` and attach it to both the head and the successor.  Only
head-successor pairs are produced; successors are never paired with each
other. -/
def pkg_solve_add_chain_rule (p : Problem) (vi : Nat) : Problem :=
  (chain_succs p vi).foldl
    (fun st cvi =>
      let built := add_clause st
        [({ varIdx := cvi, inverse := true } : Lit),
         ({ varIdx := vi, inverse := true } : Lit)]
      let st2 := { built.1 with rulesCount := built.1.rulesCount + 1 }
      let st3 := pkg_solve_add_var_rules st2 cvi built.2 2 false
      pkg_solve_add_var_rules st3 vi built.2 2 false)
    p

/-- pkg_solve_process_universe_variable (lines 906-968): walk the uid chain;
for each member add dependency, conflict, require (remote members only) and
request rules, and from the first member that has a successor add the chain
mutex rules once (`chain_added`). -/
def pkg_solve_process_universe_variable (p0 : Problem) (headIdx : Nat) : Problem :=
  ((chain_from p0 headIdx).foldl
    (fun (acc : Problem × Bool) cvi =>
      let p := acc.1
      let chainAdded := acc.2
      let pk := (get_var p0 cvi).unit
      let p1 := pk.deps.foldl (fun st d => pkg_solve_add_depend_rule st cvi d) p
      let p2 := pk.conflicts.foldl
        (fun st c => pkg_solve_add_conflict_rule st pk.installed cvi c.1 c.2) p1
      let p3 :=
        if !pk.installed then
          pk.shlibs.foldl (fun st s => pkg_solve_add_require_rule st cvi s) p2
        else p2
      let p4 :=
        if p3.reqAdd.contains (pk.uid, pk.digest) then
          pkg_solve_add_unary_rule p3 cvi false
        else p3
      let p5 :=
        if p4.reqDel.contains (pk.uid, pk.digest) then
          pkg_solve_add_unary_rule p4 cvi true
        else p4
      if !chainAdded && (get_var p0 cvi).next.isSome then
        (pkg_solve_add_chain_rule p5 cvi, true)
      else (p5, chainAdded))
    (p0, false)).1

/-- pkg_solve_add_variable (lines 970-1000) for one universe chain: allocate
consecutive variable slots, link them with `next`, record whether the unit
chain is a singleton (for the initial-guess heuristic). -/
def build_chain_vars : List UnivPkg → Nat → Bool → List PkgVar
  | [], _, _ => []
  | u :: rest, idx, alone =>
    { unit := u, uid := u.uid, digest := u.digest, unitAlone := alone,
      next := if rest.isEmpty then none else some (idx + 1),
      toInstall := false, resolved := false, rules := [], nrules := 0 }
      :: build_chain_vars rest (idx + 1) alone

/-- pkg_solve_jobs_to_sat (lines 1002-1058): build the variable table and the
uid index from the universe, then process every universe chain; `none`
models the `goto err` path (a uid whose variable chain is missing). -/
def pkg_solve_jobs_to_sat (u : PkgUniverse) (reqAdd reqDel : List (Nat × Nat))
    (jt : JobType) : Option Problem :=
  let init := u.chains.foldl
    (fun (acc : List PkgVar × List (Nat × Nat)) c =>
      match c with
      | [] => acc
      | pk :: _ =>
        (acc.1 ++ build_chain_vars c acc.1.length (c.length == 1),
         acc.2 ++ [(pk.uid, acc.1.length)]))
    ([], [])
  let p0 : Problem :=
    { jobType := jt, provides := u.provides, reqAdd := reqAdd, reqDel := reqDel,
      vars := init.1, byUid := init.2, clauses := [], rulesCount := 0 }
  u.chains.foldl
    (fun op c =>
      match op with
      | none => none
      | some p =>
        match c with
        | [] => some p
        | pk :: _ =>
          match lookup_uid p pk.uid with
          | none => none
          | some hv => some (pkg_solve_process_universe_variable p hv))
    (some p0)

/-- PKG_SOLVED_* job record kinds. -/
inductive SolvedType where
  | install
  | fetch
  | upgrade
  | del
deriving Repr, DecidableEq, Inhabited

/-- A `pkg_solved` record: kind, `items[0]` and `items[1]` as variable
indices (each variable references its unit 1:1). -/
structure Solved where
  type : SolvedType
  item0 : Nat
  item1 : Option Nat
deriving Repr, DecidableEq, Inhabited

/-- A chain member that is an install candidate (`cur_var->to_install &&
cur_var->unit->pkg->type != PKG_INSTALLED`, line 1111). -/
def is_add_cand (p : Problem) (i : Nat) : Bool :=
  (get_var p i).toInstall && !(get_var p i).unit.installed

/-- A chain member that is a delete candidate (`!cur_var->to_install &&
cur_var->unit->pkg->type == PKG_INSTALLED`, line 1115). -/
def is_del_cand (p : Problem) (i : Nat) : Bool :=
  !(get_var p i).toInstall && (get_var p i).unit.installed

/-- The body of the classification scan of `pkg_solve_insert_res_job`
(lines 1110-1119), threading the accumulator
(add_var, seen_add, del_var, seen_del). -/
def classify_chain_aux (p : Problem) (acc : Option Nat × Nat × Option Nat × Nat) :
    List Nat → Option Nat × Nat × Option Nat × Nat
  | [] => acc
  | i :: t =>
    if is_add_cand p i then
      classify_chain_aux p (some i, acc.2.1 + 1, acc.2.2.1, acc.2.2.2) t
    else if is_del_cand p i then
      classify_chain_aux p (acc.1, acc.2.1, some i, acc.2.2.2 + 1) t
    else classify_chain_aux p acc t

/-- The classification scan of `pkg_solve_insert_res_job` (lines 1110-1119):
walk the chain once, remembering the LAST add candidate and the LAST delete
candidate seen, and counting both kinds. -/
def classify_chain (p : Problem) (chain : List Nat) :
    Option Nat × Nat × Option Nat × Nat :=
  classify_chain_aux p (none, 0, none, 0) chain

/-- pkg_solve_insert_res_job (lines 1101-1181): classify the chain; more
than one add candidate is an internal error (reported, chain skipped,
`true` in the second component); otherwise emit an install/fetch or upgrade
record for the add candidate (paired with the remembered delete candidate)
followed by delete records for every delete candidate except the one
consumed by the upgrade. -/
def pkg_solve_insert_res_job (p : Problem) (headIdx : Nat) : List Solved × Bool :=
  let chain := chain_from p headIdx
  let cls := classify_chain p chain
  let addVar := cls.1
  let seenAdd := cls.2.1
  let delVar := cls.2.2.1
  let seenDel := cls.2.2.2
  if seenAdd > 1 then ([], true)
  else if seenAdd != 0 || seenDel != 0 then
    let first :=
      if seenAdd > 0 then
        if seenDel == 0 then
          [({ type := if p.jobType == JobType.fetch then SolvedType.fetch
                      else SolvedType.install,
              item0 := addVar.getD 0, item1 := none } : Solved)]
        else
          [({ type := SolvedType.upgrade, item0 := addVar.getD 0,
              item1 := delVar } : Solved)]
      else []
    let dels := (chain.filter
        (fun i => is_del_cand p i && !(decide (seenAdd > 0) && decide (delVar = some i)))).map
      (fun i => ({ type := SolvedType.del, item0 := i, item1 := none } : Solved))
    (first ++ dels, false)
  else ([], false)

/-- The loop body of `pkg_solve_sat_to_jobs` (lines 1188-1194): walk the uid
index (chain heads only); an unresolved HEAD aborts with EPKG_FATAL (first
component false), leaving the records of the chains already visited;
otherwise accumulate each chain's records and whether any chain reported the
internal error. -/
def sat_to_jobs_aux :
    List (Nat × Nat) → Problem → List Solved → Bool → Bool × List Solved × Bool
  | [], _, acc, err => (true, acc, err)
  | pr :: rest, p, acc, err =>
    if (get_var p pr.2).resolved then
      let r := pkg_solve_insert_res_job p pr.2
      sat_to_jobs_aux rest p (acc ++ r.1) (err || r.2)
    else (false, acc, err)

/-- pkg_solve_sat_to_jobs (lines 1183-1197): returns (EPKG_OK?, emitted job
records, internal-error reported?). -/
def pkg_solve_sat_to_jobs (p : Problem) : Bool × List Solved × Bool :=
  sat_to_jobs_aux p.byUid p [] false

/-- One line of the external SAT solver's output, at token granularity:
whether it begins with "SAT" (`strncmp(line, "SAT", 3)`), whether it begins
with "v " and, for the assignment dialects, the signed integer tokens on the
line in order (the `strsep`/`isdigit` scan skips non-numeric tokens). -/
structure SatLine where
  isSat : Bool
  isV : Bool
  toks : List Int
deriving Repr, DecidableEq, Inhabited

/-- The token loop of `pkg_solve_parse_sat_output` (lines 1225-1242 and
1245-1263): each non-zero token `t` resolves the variable with 1-based
ordinal `|t|` (if it exists) to `t > 0`; a zero token sets `done` and breaks
out of the CURRENT line's loop only. -/
def consume_toks (p : Problem) (done : Bool) : List Int → Problem × Bool
  | [] => (p, done)
  | t :: rest =>
    if t = 0 then (p, true)
    else
      let ord := t.natAbs
      let p2 :=
        if 1 ≤ ord ∧ ord ≤ p.vars.length then
          set_var p (ord - 1)
            { get_var p (ord - 1) with resolved := true, toInstall := decide (0 < t) }
        else p
      consume_toks p2 done rest

/-- The line loop of `pkg_solve_parse_sat_output` (lines 1219-1269): a line
starting with "SAT" arms `got_sat`; after that EVERY line is consumed as
assignment tokens; otherwise only lines starting with "v " are consumed;
anything else is ignored. -/
def parse_lines (p : Problem) (gotSat done : Bool) :
    List SatLine → Problem × Bool
  | [] => (p, done)
  | l :: rest =>
    if l.isSat then parse_lines p true done rest
    else if gotSat then
      let r := consume_toks p done l.toks
      parse_lines r.1 true r.2 rest
    else if l.isV then
      let r := consume_toks p done l.toks
      parse_lines r.1 gotSat r.2 rest
    else parse_lines p gotSat done rest

/-- pkg_solve_parse_sat_output (lines 1199-1282): consume the lines; if a
terminating zero token was seen (`done`), hand the populated assignment to
`pkg_solve_sat_to_jobs`; otherwise report "cannot parse sat solver output"
and fail EPKG_FATAL without emitting any job (`none`). -/
def pkg_solve_parse_sat_output (p : Problem) (lines : List SatLine) :
    Option (Bool × List Solved × Bool) :=
  let r := parse_lines p false false lines
  if r.2 then some (pkg_solve_sat_to_jobs r.1) else none

/-! Concrete instances used by the claim theorems, witnesses and
counterexamples. -/

/-- A remote (not installed) unit of uid 0 with the given digest and no
dependencies, conflicts or shlib requirements. -/
def remoteUnit (d : Nat) : UnivPkg :=
  { uid := 0, digest := d, installed := false, deps := [], conflicts := [], shlibs := [] }

/-- An installed unit of uid 0 with the given digest. -/
def localUnit (d : Nat) : UnivPkg :=
  { uid := 0, digest := d, installed := true, deps := [], conflicts := [], shlibs := [] }

/-- A bare variable for hand-built solver states. -/
def mkVar (u : UnivPkg) (nx : Option Nat) (ti rv : Bool) (rs : List Nat) (nr : Nat) :
    PkgVar :=
  { unit := u, uid := u.uid, digest := u.digest, unitAlone := false, next := nx,
    toInstall := ti, resolved := rv, rules := rs, nrules := nr }

/-- A universe with one chain of three remote candidates for uid 0. -/
def threeChainUniverse : PkgUniverse :=
  { chains := [[remoteUnit 0, remoteUnit 1, remoteUnit 2]], provides := [] }

/-- The problem built for `threeChainUniverse` with install requests for the
second and third candidates. -/
def threeChainProblem : Problem :=
  (pkg_solve_jobs_to_sat threeChainUniverse [(0, 1), (0, 2)] [] JobType.install).getD default

/-- The state after running the solver on `threeChainProblem`. -/
def threeChainSolved : Problem :=
  ((pkg_solve_sat_problem 50 threeChainProblem).getD default).1

/-- A universe with one chain of two remote candidates for uid 0. -/
def twoChainUniverse : PkgUniverse :=
  { chains := [[remoteUnit 0, remoteUnit 1]], provides := [] }

/-- The problem built for `twoChainUniverse` with no requests: the only
emitted clause is the chain mutex. -/
def twoChainProblem : Problem :=
  (pkg_solve_jobs_to_sat twoChainUniverse [] [] JobType.install).getD default

/-- Scenario S1: a universe with a single installed package and no
requests. -/
def s1Universe : PkgUniverse :=
  { chains := [[localUnit 0]], provides := [] }

/-- The problem built for scenario S1. -/
def s1Problem : Problem :=
  (pkg_solve_jobs_to_sat s1Universe [] [] JobType.install).getD default

/-- A pre-guess solver state for the undo demonstration: variables v0, v1
both carrying clause 0 = (!v0 | v1) in their rule lists, nothing resolved,
`nresolved = 0`. -/
def undoPreState : Problem :=
  { jobType := JobType.install, provides := [], reqAdd := [], reqDel := [],
    vars := [mkVar (remoteUnit 0) (some 1) false false [0] 2,
             mkVar (remoteUnit 1) none false false [0] 2],
    byUid := [(0, 0)],
    clauses := [{ items := [{ varIdx := 0, inverse := true },
                            { varIdx := 1, inverse := false }],
                  nresolved := 0 }],
    rulesCount := 1 }

/-- The state after a decision level on `undoPreState` is undone: v0 was
guessed (lines 447-450), v1 was then assigned by unit propagation
(lines 257-260, bumping clause 0's counter), the implication graph is
[v0, v1], and `pkg_solve_undo_guess` replays it. -/
def undoPostState : Problem :=
  pkg_solve_undo_guess (assign_var (guess_var undoPreState 0 true) 1 true) [0, 1]

/-- Emitter state with one chain: an add candidate at index 0 and delete
candidates at indices 1 and 2 (chain order). -/
def upgradeChainState : Problem :=
  { jobType := JobType.install, provides := [], reqAdd := [], reqDel := [],
    vars := [mkVar (remoteUnit 0) (some 1) true true [] 0,
             mkVar (localUnit 1) (some 2) false true [] 0,
             mkVar (localUnit 2) none false true [] 0],
    byUid := [(0, 0)], clauses := [], rulesCount := 0 }

/-- Emitter state with one chain whose HEAD is resolved (and unchanged, so
no record is due) while the second member is unresolved. -/
def unresolvedMemberState : Problem :=
  { jobType := JobType.install, provides := [], reqAdd := [], reqDel := [],
    vars := [mkVar (localUnit 0) (some 1) true true [] 0,
             mkVar (remoteUnit 1) none false false [] 0],
    byUid := [(0, 0)], clauses := [], rulesCount := 0 }

/-- Emitter state with one fully resolved chain holding TWO add candidates
(the state the chain mutex was supposed to exclude). -/
def twoAddState : Problem :=
  { jobType := JobType.install, provides := [], reqAdd := [], reqDel := [],
    vars := [mkVar (remoteUnit 0) (some 1) true true [] 0,
             mkVar (remoteUnit 1) none true true [] 0],
    byUid := [(0, 0)], clauses := [], rulesCount := 0 }

/-- A one-variable problem for the SAT-output import. -/
def parseProblem : Problem :=
  { jobType := JobType.install, provides := [], reqAdd := [], reqDel := [],
    vars := [mkVar (remoteUnit 0) none false false [] 0],
    byUid := [(0, 0)], clauses := [], rulesCount := 0 }

/-- The line "SAT". -/
def satLine : SatLine := { isSat := true, isV := false, toks := [] }

/-- An assignment line with tokens "1 0". -/
def lineOneZero : SatLine := { isSat := false, isV := false, toks := [1, 0] }

/-- An assignment line with tokens "-1 0". -/
def lineNegOneZero : SatLine := { isSat := false, isV := false, toks := [-1, 0] }

/-- An assignment line with the single token "1" (no terminator). -/
def lineOne : SatLine := { isSat := false, isV := false, toks := [1] }

/-! Helper lemmas about list writes, shared by several claim proofs. -/

theorem getD_set_self {α : Type} (l : List α) (i : Nat) (x d : α)
    (h : i < l.length) : (l.set i x).getD i d = x := by
  induction l generalizing i with
  | nil => simp at h
  | cons a t ih =>
    cases i with
    | zero => simp [List.set, List.getD]
    | succ j =>
      simp only [List.set, List.getD_cons_succ]
      exact ih j (by simpa using h)

theorem getD_set_ne {α : Type} (l : List α) (i j : Nat) (x d : α)
    (h : i ≠ j) : (l.set i x).getD j d = l.getD j d := by
  induction l generalizing i j with
  | nil => simp [List.set]
  | cons a t ih =>
    cases i with
    | zero =>
      cases j with
      | zero => exact absurd rfl h
      | succ k => simp [List.set, List.getD]
    | succ i2 =>
      cases j with
      | zero => simp [List.set, List.getD]
      | succ k =>
        simp only [List.set, List.getD_cons_succ]
        exact ih i2 k (fun hk => h (by simp [hk]))

/-- C1: pkg_solve_undo_guess clears the `resolved` flags of the variables
recorded in the level's implication graph, but nothing decrements
`nresolved` on their clauses (pkg_solve_update_var_resolved only
increments), so after the undo clause 0's counter still reads 1 although no
literal of it is resolved; the state is not restored to its pre-guess value.
The claim that the undo decrements `nresolved` on every clause of every
recorded variable and restores byte-equivalence is false of the code. -/
theorem pkg_undo_guess_leaves_nresolved :
    ((get_var undoPostState 0).resolved = false ∧
     (get_var undoPostState 1).resolved = false) ∧
    (undoPostState.clauses.getD 0 default).nresolved = 1 ∧
    (undoPreState.clauses.getD 0 default).nresolved = 0 := by
  decide

/-- C2 (counterexample): after building the problem for a two-candidate
chain (whose only clause is the binary chain mutex), the head variable's
`nrules` is 2 while its rule list stores a single clause reference, so
`nrules` does not equal the number of stored clause references and the
single attachment raised `nrules` by 2, not by 1. -/
theorem nrules_counts_literals_not_references :
    (get_var twoChainProblem 0).nrules = 2 ∧
    (get_var twoChainProblem 0).rules.length = 1 ∧
    ¬((get_var twoChainProblem 0).nrules = (get_var twoChainProblem 0).rules.length) := by
  decide

/-- C2 (amended): pkg_solve_add_var_rules adds its `nrules` argument `cnt`
(the clause's literal count at every call site) to the variable's `nrules`
counter while prepending exactly one clause reference to its rule list; so
`nrules` totals the literal counts of the attached clauses, not their
number. -/
theorem add_var_rules_increment (p : Problem) (vi ci cnt : Nat)
    (h : vi < p.vars.length) :
    (get_var (pkg_solve_add_var_rules p vi ci cnt false) vi).nrules =
      (get_var p vi).nrules + cnt ∧
    (get_var (pkg_solve_add_var_rules p vi ci cnt false) vi).rules =
      ci :: (get_var p vi).rules := by
  constructor <;>
    simp [pkg_solve_add_var_rules, get_var, set_var, List.getElem?_set_self h]

theorem add_var_rules_increment_witness :
    (get_var (pkg_solve_add_var_rules parseProblem 0 5 3 false) 0).nrules =
      (get_var parseProblem 0).nrules + 3 ∧
    (get_var (pkg_solve_add_var_rules parseProblem 0 5 3 false) 0).rules =
      5 :: (get_var parseProblem 0).rules :=
  add_var_rules_increment parseProblem 0 5 3 (by decide)

/-- C10: PKG_SOLVE_VAR_NEXT never produces the null pointer: after k+1
steps from NULL it points at slot k, for every k.  Hence the condition of
`while ((var = PKG_SOLVE_VAR_NEXT(problem->variables, var)))` (used in
pkg_solve_problem_free, pkg_solve_dimacs_export and
pkg_solve_parse_sat_output) never becomes false: the iteration does not
stop after the problem's nvars slots but advances past the end of the
variable array. -/
theorem var_next_never_null (k : Nat) : var_next_iter (k + 1) = some k := by
  induction k with
  | zero => rfl
  | succ n ih =>
    rw [var_next_iter, ih]
    rfl

/-- pkg_solve_add_var_rules never touches the clause arena (it only updates
per-variable rule lists and counters). -/
theorem add_var_rules_clauses (p : Problem) (vi ci cnt : Nat) (b : Bool) :
    (pkg_solve_add_var_rules p vi ci cnt b).clauses = p.clauses := by
  unfold pkg_solve_add_var_rules
  generalize (if b then chain_from p vi else [vi]) = idxs
  induction idxs generalizing p with
  | nil => rfl
  | cons j t ih =>
    rw [List.foldl_cons, ih]
    rfl

/-- The clauses emitted by pkg_solve_add_chain_rule are exactly one binary
clause `(!Ay | !Ax)` per successor `Ay` of the head `Ax`. -/
theorem add_chain_rule_clauses (p : Problem) (vi : Nat) :
    (pkg_solve_add_chain_rule p vi).clauses =
      p.clauses ++ (chain_succs p vi).map
        (fun cvi => { items := [{ varIdx := cvi, inverse := true },
                                { varIdx := vi, inverse := true }],
                      nresolved := 0 }) := by
  unfold pkg_solve_add_chain_rule
  generalize chain_succs p vi = succs
  induction succs generalizing p with
  | nil => simp
  | cons c t ih =>
    rw [List.foldl_cons, ih]
    simp [add_var_rules_clauses, add_clause]

/-- C3 (counterexample): on the three-candidate chain with install requests
for the second and third candidates, the solver succeeds, yet two chain
members end with `to_install = true` while not installed — the head-only
chain-mutex clauses do not enforce at-most-one for chains of length three. -/
theorem chain_mutex_counterexample :
    (pkg_solve_sat_problem 50 threeChainProblem).map Prod.snd = some true ∧
    2 ≤ (chain_from threeChainSolved 0).countP
      (fun i => is_add_cand threeChainSolved i) := by
  decide

/-- C3 (amended): the chain-mutex clauses pair only the chain head with each
successor; in any assignment satisfying all of them, if the head is
installed then every successor is not, so at most one of any head-successor
pair is installed (and hence at most one member in chains of length at most
two), but nothing constrains two successors against each other. -/
theorem chain_rule_head_mutex (p : Problem) (vi : Nat) (vs : List PkgVar)
    (hsat : ∀ c ∈ (pkg_solve_add_chain_rule p vi).clauses.drop p.clauses.length,
      clause_sat vs c = true)
    (hhead : (vs.getD vi default).toInstall = true) :
    ∀ cvi ∈ chain_succs p vi, (vs.getD cvi default).toInstall = false := by
  intro cvi hm
  have hc := hsat
    ({ items := [{ varIdx := cvi, inverse := true },
                 { varIdx := vi, inverse := true }], nresolved := 0 })
    (by rw [add_chain_rule_clauses, List.drop_left]
        exact List.mem_map_of_mem _ hm)
  have hhead2 : (vs[vi]?.getD default).toInstall = true := by
    simpa [List.getD_eq_getElem?_getD] using hhead
  simpa [clause_sat, hhead2] using hc

/-- An assignment for the two-candidate chain: head installed, successor
not. -/
def mutexAssign : List PkgVar :=
  [mkVar (remoteUnit 0) (some 1) true true [] 0,
   mkVar (remoteUnit 1) none false true [] 0]

theorem chain_rule_head_mutex_witness :
    (mutexAssign.getD 1 default).toInstall = false :=
  chain_rule_head_mutex twoChainProblem 0 mutexAssign (by decide) (by decide)
    1 (by decide)

/-- C5 (counterexample): in scenario S1 the solver returns success via the
`rules_count == 0` early return WITHOUT running the pure-clause seed: A's
variable does not become resolved, and the subsequent job emission does not
succeed (it returns EPKG_FATAL), contrary to the claim. -/
theorem s1_seed_counterexample :
    pkg_solve_sat_problem 10 s1Problem = some (s1Problem, true) ∧
    ¬((get_var s1Problem 0).resolved = true) ∧
    ¬((pkg_solve_sat_to_jobs s1Problem).1 = true) := by
  decide

/-- C5 (amended): for the S1 universe the built problem has no rules, so
pkg_solve_sat_problem succeeds immediately through the `rules_count == 0`
early return, leaving A's variable unresolved with `to_install = false`;
pkg_solve_sat_to_jobs on that state then fails (EPKG_FATAL) and emits no
job records. -/
theorem s1_early_return_behavior :
    s1Problem.rulesCount = 0 ∧
    pkg_solve_sat_problem 10 s1Problem = some (s1Problem, true) ∧
    (get_var s1Problem 0).resolved = false ∧
    (get_var s1Problem 0).toInstall = false ∧
    pkg_solve_sat_to_jobs s1Problem = (false, [], false) := by
  decide

/-- The success flag of the `pkg_solve_sat_to_jobs` loop depends only on the
`resolved` flags of the chain heads listed in the uid index. -/
theorem sat_to_jobs_aux_ok (l : List (Nat × Nat)) (p : Problem)
    (acc : List Solved) (err : Bool) :
    (sat_to_jobs_aux l p acc err).1 =
      l.all (fun pr => (get_var p pr.2).resolved) := by
  induction l generalizing acc err with
  | nil => rfl
  | cons pr rest ih =>
    by_cases h : (get_var p pr.2).resolved = true <;>
      simp [sat_to_jobs_aux, h, ih]

/-- C6 (amended): pkg_solve_sat_to_jobs succeeds iff every chain HEAD in the
uid index is resolved; the `resolved` flags of non-head chain members are
never consulted, so an unresolved non-head member does not make the emit
fail. -/
theorem sat_to_jobs_checks_heads_only (p : Problem) :
    (pkg_solve_sat_to_jobs p).1 =
      p.byUid.all (fun pr => (get_var p pr.2).resolved) :=
  sat_to_jobs_aux_ok p.byUid p [] false

/-- C6 (counterexample): a chain whose head is resolved but whose second
member is not: pkg_solve_sat_to_jobs returns EPKG_OK, not EPKG_FATAL,
although a variable of the problem is unresolved. -/
theorem unresolved_member_not_fatal :
    (get_var unresolvedMemberState 1).resolved = false ∧
    (pkg_solve_sat_to_jobs unresolvedMemberState).1 = true := by
  decide

/-- The last-seen tracker of the classification scan: folding "remember the
element" over a list, starting from a previous value. -/
def olast (x : Option Nat) (l : List Nat) : Option Nat :=
  l.foldl (fun _ y => some y) x

theorem olast_cons (x : Option Nat) (i : Nat) (l : List Nat) :
    olast x (i :: l) = olast (some i) l := rfl

theorem olast_append_single (x : Option Nat) (l : List Nat) (y : Nat) :
    olast x (l ++ [y]) = some y := by
  induction l generalizing x with
  | nil => rfl
  | cons a t ih => exact ih (some a)

/-- An add candidate is never a delete candidate (the scan's else-if). -/
theorem is_del_of_is_add (p : Problem) (i : Nat)
    (h : is_add_cand p i = true) : is_del_cand p i = false := by
  simp only [is_add_cand, Bool.and_eq_true] at h
  simp [is_del_cand, h.1]

/-- The classification scan remembers the LAST add and the LAST delete
candidate of the chain and counts each kind. -/
theorem classify_chain_aux_spec (p : Problem) (chain : List Nat) :
    ∀ a na d nd, classify_chain_aux p (a, na, d, nd) chain =
      (olast a (chain.filter (fun i => is_add_cand p i)),
       na + (chain.filter (fun i => is_add_cand p i)).length,
       olast d (chain.filter (fun i => is_del_cand p i)),
       nd + (chain.filter (fun i => is_del_cand p i)).length) := by
  induction chain with
  | nil => intro a na d nd; simp [classify_chain_aux, olast]
  | cons i t ih =>
    intro a na d nd
    by_cases ha : is_add_cand p i = true
    · have hd := is_del_of_is_add p i ha
      have step : classify_chain_aux p (a, na, d, nd) (i :: t) =
          classify_chain_aux p (some i, na + 1, d, nd) t := by
        simp [classify_chain_aux, ha]
      have hfa : (i :: t).filter (fun j => is_add_cand p j) =
          i :: t.filter (fun j => is_add_cand p j) := by
        simp [List.filter_cons, ha]
      have hfd : (i :: t).filter (fun j => is_del_cand p j) =
          t.filter (fun j => is_del_cand p j) := by
        simp [List.filter_cons, hd]
      rw [step, ih, hfa, hfd, olast_cons]
      simp only [List.length_cons, Prod.mk.injEq, true_and, and_true]
      omega
    · by_cases hd : is_del_cand p i = true
      · have step : classify_chain_aux p (a, na, d, nd) (i :: t) =
            classify_chain_aux p (a, na, some i, nd + 1) t := by
          simp [classify_chain_aux, ha, hd]
        have hfa : (i :: t).filter (fun j => is_add_cand p j) =
            t.filter (fun j => is_add_cand p j) := by
          simp [List.filter_cons, ha]
        have hfd : (i :: t).filter (fun j => is_del_cand p j) =
            i :: t.filter (fun j => is_del_cand p j) := by
          simp [List.filter_cons, hd]
        rw [step, ih, hfa, hfd, olast_cons]
        simp only [List.length_cons, Prod.mk.injEq, true_and, and_true]
        omega
      · have step : classify_chain_aux p (a, na, d, nd) (i :: t) =
            classify_chain_aux p (a, na, d, nd) t := by
          simp [classify_chain_aux, ha, hd]
        have hfa : (i :: t).filter (fun j => is_add_cand p j) =
            t.filter (fun j => is_add_cand p j) := by
          simp [List.filter_cons, ha]
        have hfd : (i :: t).filter (fun j => is_del_cand p j) =
            t.filter (fun j => is_del_cand p j) := by
          simp [List.filter_cons, hd]
        rw [step, ih, hfa, hfd]

theorem classify_chain_spec (p : Problem) (chain : List Nat) :
    classify_chain p chain =
      (olast none (chain.filter (fun i => is_add_cand p i)),
       (chain.filter (fun i => is_add_cand p i)).length,
       olast none (chain.filter (fun i => is_del_cand p i)),
       (chain.filter (fun i => is_del_cand p i)).length) := by
  unfold classify_chain
  rw [classify_chain_aux_spec]
  simp

/-- C7 (amended): when a chain holds more than one add candidate after
solving, pkg_solve_insert_res_job reports the internal error and emits no
record for the chain ("skip"); it cannot make the surrounding call fail
because its only effect on pkg_solve_sat_to_jobs is this flag, not the
return code. -/
theorem insert_res_job_skips_chain (p : Problem) (hi : Nat)
    (h : 1 < ((chain_from p hi).filter (fun i => is_add_cand p i)).length) :
    pkg_solve_insert_res_job p hi = ([], true) := by
  simp [pkg_solve_insert_res_job, classify_chain_spec, h]

theorem insert_res_job_skips_chain_witness :
    pkg_solve_insert_res_job twoAddState 0 = ([], true) :=
  insert_res_job_skips_chain twoAddState 0 (by decide)

/-- C7 (counterexample): a fully resolved chain with two add candidates:
the internal error is reported and the chain skipped (no records), yet
pkg_solve_sat_to_jobs still returns EPKG_OK — the overall call does not
fail as the claim states. -/
theorem two_adds_still_ok_counterexample :
    (pkg_solve_sat_to_jobs twoAddState).1 = true ∧
    (pkg_solve_sat_to_jobs twoAddState).2.1 = [] ∧
    (pkg_solve_sat_to_jobs twoAddState).2.2 = true := by
  decide

theorem filter_and_split (l : List Nat) (f g : Nat → Bool) :
    l.filter (fun i => f i && g i) = (l.filter f).filter g := by
  induction l with
  | nil => rfl
  | cons b t ih =>
    by_cases hf : f b = true <;> by_cases hg : g b = true <;>
      simp [List.filter_cons, hf, hg, ih]

theorem filter_not_last (ds : List Nat) (dl : Nat) (hnd : dl ∉ ds) :
    (ds ++ [dl]).filter (fun i => !(decide (dl = i))) = ds := by
  induction ds with
  | nil => simp
  | cons b t ih =>
    have hb : ¬(dl = b) := fun h => hnd (h ▸ List.mem_cons_self b t)
    simp only [List.cons_append, List.filter_cons, hb, decide_False,
      Bool.not_false, if_true]
    rw [ih (fun h => hnd (List.mem_cons_of_mem b h))]

/-- C4 (amended): for a chain with exactly one add candidate and at least
one delete candidate, pkg_solve_insert_res_job emits one upgrade record
whose items[0] is the add candidate and whose items[1] is the LAST delete
candidate in chain order, followed by delete records for the remaining
delete candidates (all but the last) in chain order. -/
theorem insert_res_job_upgrade_shape (p : Problem) (hi a dl : Nat) (ds : List Nat)
    (ha : (chain_from p hi).filter (fun i => is_add_cand p i) = [a])
    (hd : (chain_from p hi).filter (fun i => is_del_cand p i) = ds ++ [dl])
    (hnd : dl ∉ ds) :
    pkg_solve_insert_res_job p hi =
      ({ type := SolvedType.upgrade, item0 := a, item1 := some dl } ::
        ds.map (fun i => ({ type := SolvedType.del, item0 := i, item1 := none } : Solved)),
       false) := by
  have hsplit : (chain_from p hi).filter
      (fun i => is_del_cand p i && !(decide (dl = i))) = ds := by
    rw [filter_and_split, hd]
    exact filter_not_last ds dl hnd
  unfold pkg_solve_insert_res_job
  simp [classify_chain_spec, ha, hd, olast_append_single, hsplit,
    Nat.zero_lt_one]
  rfl

theorem insert_res_job_upgrade_shape_witness :
    pkg_solve_insert_res_job upgradeChainState 0 =
      ({ type := SolvedType.upgrade, item0 := 0, item1 := some 2 } ::
        [{ type := SolvedType.del, item0 := 1, item1 := none }], false) :=
  insert_res_job_upgrade_shape upgradeChainState 0 0 2 [1]
    (by decide) (by decide) (by decide)

/-- C4 (counterexample): on the chain (add at slot 0, delete candidates at
slots 1 and 2 in chain order) the emitter pairs the upgrade with the LAST
delete candidate (slot 2) and emits a delete record for slot 1 — not, as
the claim states, items[1] = the FIRST delete candidate (slot 1) with a
delete record for slot 2. -/
theorem upgrade_pairs_last_del_counterexample :
    pkg_solve_insert_res_job upgradeChainState 0 =
      ({ type := SolvedType.upgrade, item0 := 0, item1 := some 2 } ::
        [{ type := SolvedType.del, item0 := 1, item1 := none }], false) ∧
    ¬(pkg_solve_insert_res_job upgradeChainState 0 =
      ({ type := SolvedType.upgrade, item0 := 0, item1 := some 1 } ::
        [{ type := SolvedType.del, item0 := 2, item1 := none }], false)) := by
  decide

/-- A line without a zero token leaves the `done` flag unchanged. -/
theorem consume_toks_no_zero (d : Bool) :
    ∀ (toks : List Int), (0 : Int) ∉ toks → ∀ (p : Problem),
      (consume_toks p d toks).2 = d := by
  intro toks
  induction toks with
  | nil => intro _ p; rfl
  | cons t rest ih =>
    intro h p
    have ht : ¬(t = 0) := fun he => h (he ▸ List.mem_cons_self t rest)
    simp only [consume_toks, ht, if_false]
    exact ih (fun hm => h (List.mem_cons_of_mem t hm)) _

/-- If no consumed line carries a zero token, `done` stays false. -/
theorem parse_lines_no_zero :
    ∀ (lines : List SatLine), (∀ l ∈ lines, (0 : Int) ∉ l.toks) →
      ∀ (p : Problem) (g : Bool), (parse_lines p g false lines).2 = false := by
  intro lines
  induction lines with
  | nil => intro _ p g; rfl
  | cons l rest ih =>
    intro h p g
    have hl : (0 : Int) ∉ l.toks := h l (List.mem_cons_self l rest)
    have hrest : ∀ x ∈ rest, (0 : Int) ∉ x.toks :=
      fun x hx => h x (List.mem_cons_of_mem l hx)
    have hc := consume_toks_no_zero false l.toks hl p
    by_cases hs : l.isSat = true
    · simp only [parse_lines, hs, if_true]
      exact ih hrest p true
    · by_cases hg : g = true
      · simp [parse_lines, hs, hg, hc]
        exact ih hrest _ true
      · have hg2 : g = false := by
          cases g with
          | false => rfl
          | true => exact absurd rfl hg
        by_cases hv : l.isV = true
        · simp [parse_lines, hs, hg2, hv, hc]
          exact ih hrest _ false
        · simp [parse_lines, hs, hg2, hv]
          exact ih hrest p false

/-- C8 (amended): each non-zero token `t` with an in-range ordinal resolves
the variable with 1-based ordinal `|t|` to `to_install = (t > 0)`; a zero
token stops the consumption of the CURRENT line's remaining tokens (and
records that a terminator was seen — later lines are still consumed and may
override assignments); and when no zero token appears on any line the import
fails as fatal (`none`), emitting no jobs. -/
theorem parse_sat_token_semantics :
    (∀ (p : Problem) (d : Bool) (t : Int), t ≠ 0 → 1 ≤ t.natAbs →
        t.natAbs ≤ p.vars.length →
        ((consume_toks p d [t]).1.vars.getD (t.natAbs - 1) default).resolved = true ∧
        ((consume_toks p d [t]).1.vars.getD (t.natAbs - 1) default).toInstall
          = decide (0 < t)) ∧
    (∀ (p : Problem) (d : Bool) (rest : List Int),
        consume_toks p d ((0 : Int) :: rest) = (p, true)) ∧
    (∀ (p : Problem) (lines : List SatLine),
        (∀ l ∈ lines, (0 : Int) ∉ l.toks) →
        pkg_solve_parse_sat_output p lines = none) := by
  refine ⟨?_, ?_, ?_⟩
  · intro p d t ht h1 h2
    have hlt : t.natAbs - 1 < p.vars.length := by omega
    have hcond : 1 ≤ t.natAbs ∧ t.natAbs ≤ p.vars.length := ⟨h1, h2⟩
    simp only [consume_toks, ht, if_false, hcond, if_true]
    constructor <;>
      simp [set_var, get_var, List.getD_eq_getElem?_getD,
        List.getElem?_set_self hlt]
  · intro p d rest
    simp [consume_toks]
  · intro p lines h
    simp [pkg_solve_parse_sat_output, parse_lines_no_zero lines h p false]

theorem parse_sat_token_semantics_witness :
    ((consume_toks parseProblem false [(1 : Int)]).1.vars.getD 0 default).resolved = true ∧
    consume_toks parseProblem false [(0 : Int), 5] = (parseProblem, true) ∧
    pkg_solve_parse_sat_output parseProblem [lineOne] = none :=
  ⟨(parse_sat_token_semantics.1 parseProblem false 1 (by decide) (by decide)
      (by decide)).1,
   parse_sat_token_semantics.2.1 parseProblem false [5],
   parse_sat_token_semantics.2.2 parseProblem [lineOne] (by decide)⟩

/-- C8 (counterexample): after the input "SAT" / "1 0" / "-1 0", the token
-1 on the line AFTER the zero terminator is still consumed and flips the
variable back to false; had the zero token ended consumption, the
assignment would have stayed true (as it does when the input stops at the
first terminated line). -/
theorem terminator_per_line_counterexample :
    (parse_lines parseProblem false false [satLine, lineOneZero, lineNegOneZero]).2 = true ∧
    ((parse_lines parseProblem false false
        [satLine, lineOneZero, lineNegOneZero]).1.vars.getD 0 default).toInstall = false ∧
    ((parse_lines parseProblem false false
        [satLine, lineOneZero]).1.vars.getD 0 default).toInstall = true := by
  decide

/-- pkg_solve_add_var_rules never touches the global rule counter. -/
theorem add_var_rules_rules_count (p : Problem) (vi ci cnt : Nat) (b : Bool) :
    (pkg_solve_add_var_rules p vi ci cnt b).rulesCount = p.rulesCount := by
  unfold pkg_solve_add_var_rules
  generalize (if b then chain_from p vi else [vi]) = idxs
  induction idxs generalizing p with
  | nil => rfl
  | cons j t ih =>
    rw [List.foldl_cons, ih]
    rfl

/-- Updating the global rule counter does not change any variable. -/
theorem get_var_count_update (q : Problem) (n j : Nat) :
    get_var { q with rulesCount := n } j = get_var q j := rfl

/-- Effect of a non-iterating pkg_solve_add_var_rules on the touched
variable. -/
theorem add_var_rules_single_get (p : Problem) (vi ci cnt : Nat)
    (h : vi < p.vars.length) :
    get_var (pkg_solve_add_var_rules p vi ci cnt false) vi =
      { get_var p vi with
          nrules := (get_var p vi).nrules + cnt,
          rules := ci :: (get_var p vi).rules } := by
  simp [pkg_solve_add_var_rules, get_var, set_var, List.getD_eq_getElem?_getD,
    List.getElem?_set_self h]

/-- A non-iterating pkg_solve_add_var_rules leaves every other variable
unchanged. -/
theorem add_var_rules_single_other (p : Problem) (vi ci cnt j : Nat)
    (hj : j ≠ vi) :
    get_var (pkg_solve_add_var_rules p vi ci cnt false) j = get_var p j := by
  simp [pkg_solve_add_var_rules, get_var, set_var, List.getD_eq_getElem?_getD,
    List.getElem?_set_ne (Ne.symm hj)]

/-- C9: shared-library require rules.  (i) When the provides index has no
entry for the library name, nothing is built: the problem is unchanged.
(ii) When the index has an entry but no provider literal materialises
(`cnt <= 1`, the would-be clause holds only `!V`), the clause is discarded:
the problem is unchanged, so it is neither attached to any rule list nor
counted in `rules_count`.  (iii) When providers exist (`cnt > 1`), exactly
one clause `(!V | P1 | ... | Pk)` is added and counted, V's rule list gains
exactly that clause, and every other variable — the providers included —
keeps its rule list untouched. -/
theorem require_rule_registration (p : Problem) (vi shlib : Nat) :
    (lookup_provides p shlib = none → pkg_solve_add_require_rule p vi shlib = p) ∧
    (∀ prs, lookup_provides p shlib = some prs →
      (prs.foldl (pkg_solve_handle_provide p)
        ([({ varIdx := vi, inverse := true } : Lit)], 1)).2 ≤ 1 →
      pkg_solve_add_require_rule p vi shlib = p) ∧
    (∀ prs, lookup_provides p shlib = some prs →
      1 < (prs.foldl (pkg_solve_handle_provide p)
        ([({ varIdx := vi, inverse := true } : Lit)], 1)).2 →
      vi < p.vars.length →
      (pkg_solve_add_require_rule p vi shlib).clauses =
        p.clauses ++ [{ items := (prs.foldl (pkg_solve_handle_provide p)
          ([({ varIdx := vi, inverse := true } : Lit)], 1)).1, nresolved := 0 }] ∧
      (pkg_solve_add_require_rule p vi shlib).rulesCount = p.rulesCount + 1 ∧
      (get_var (pkg_solve_add_require_rule p vi shlib) vi).rules =
        p.clauses.length :: (get_var p vi).rules ∧
      (∀ j, j ≠ vi → get_var (pkg_solve_add_require_rule p vi shlib) j = get_var p j)) := by
  refine ⟨?_, ?_, ?_⟩
  · intro h
    simp [pkg_solve_add_require_rule, h]
  · intro prs h hc
    have hng : ¬(1 < (prs.foldl (pkg_solve_handle_provide p)
        ([({ varIdx := vi, inverse := true } : Lit)], 1)).2) := by omega
    simp [pkg_solve_add_require_rule, h, hng]
  · intro prs h hgt hvi
    have hres : pkg_solve_add_require_rule p vi shlib =
        { pkg_solve_add_var_rules
            (add_clause p (prs.foldl (pkg_solve_handle_provide p)
              ([({ varIdx := vi, inverse := true } : Lit)], 1)).1).1
            vi
            (add_clause p (prs.foldl (pkg_solve_handle_provide p)
              ([({ varIdx := vi, inverse := true } : Lit)], 1)).1).2
            (prs.foldl (pkg_solve_handle_provide p)
              ([({ varIdx := vi, inverse := true } : Lit)], 1)).2
            false with
          rulesCount :=
            (pkg_solve_add_var_rules
              (add_clause p (prs.foldl (pkg_solve_handle_provide p)
                ([({ varIdx := vi, inverse := true } : Lit)], 1)).1).1
              vi
              (add_clause p (prs.foldl (pkg_solve_handle_provide p)
                ([({ varIdx := vi, inverse := true } : Lit)], 1)).1).2
              (prs.foldl (pkg_solve_handle_provide p)
                ([({ varIdx := vi, inverse := true } : Lit)], 1)).2
              false).rulesCount + 1 } := by
      simp [pkg_solve_add_require_rule, h, hgt]
    refine ⟨?_, ?_, ?_, ?_⟩
    · rw [hres]
      simp [add_var_rules_clauses, add_clause]
    · rw [hres]
      simp [add_var_rules_rules_count, add_clause]
    · have hv : (pkg_solve_add_require_rule p vi shlib).vars =
          (pkg_solve_add_var_rules
            (add_clause p (prs.foldl (pkg_solve_handle_provide p)
              ([({ varIdx := vi, inverse := true } : Lit)], 1)).1).1
            vi
            (add_clause p (prs.foldl (pkg_solve_handle_provide p)
              ([({ varIdx := vi, inverse := true } : Lit)], 1)).1).2
            (prs.foldl (pkg_solve_handle_provide p)
              ([({ varIdx := vi, inverse := true } : Lit)], 1)).2
            false).vars := by
        simp [pkg_solve_add_require_rule, h, hgt]
      have hlen : vi < (add_clause p (prs.foldl (pkg_solve_handle_provide p)
          ([({ varIdx := vi, inverse := true } : Lit)], 1)).1).1.vars.length := hvi
      have hg := add_var_rules_single_get
        (add_clause p (prs.foldl (pkg_solve_handle_provide p)
          ([({ varIdx := vi, inverse := true } : Lit)], 1)).1).1
        vi
        (add_clause p (prs.foldl (pkg_solve_handle_provide p)
          ([({ varIdx := vi, inverse := true } : Lit)], 1)).1).2
        (prs.foldl (pkg_solve_handle_provide p)
          ([({ varIdx := vi, inverse := true } : Lit)], 1)).2
        hlen
      unfold get_var
      unfold get_var at hg
      rw [hv, hg]
      rfl
    · intro j hj
      have hv : (pkg_solve_add_require_rule p vi shlib).vars =
          (pkg_solve_add_var_rules
            (add_clause p (prs.foldl (pkg_solve_handle_provide p)
              ([({ varIdx := vi, inverse := true } : Lit)], 1)).1).1
            vi
            (add_clause p (prs.foldl (pkg_solve_handle_provide p)
              ([({ varIdx := vi, inverse := true } : Lit)], 1)).1).2
            (prs.foldl (pkg_solve_handle_provide p)
              ([({ varIdx := vi, inverse := true } : Lit)], 1)).2
            false).vars := by
        simp [pkg_solve_add_require_rule, h, hgt]
      have ho := add_var_rules_single_other
        (add_clause p (prs.foldl (pkg_solve_handle_provide p)
          ([({ varIdx := vi, inverse := true } : Lit)], 1)).1).1
        vi
        (add_clause p (prs.foldl (pkg_solve_handle_provide p)
          ([({ varIdx := vi, inverse := true } : Lit)], 1)).1).2
        (prs.foldl (pkg_solve_handle_provide p)
          ([({ varIdx := vi, inverse := true } : Lit)], 1)).2
        j hj
      unfold get_var
      unfold get_var at ho
      rw [hv, ho]
      rfl

/-- A problem for the require-rule witness: variable 0 is a remote requirer,
variable 1 (uid 1) a provider; shlib 7 is provided by uid 1, shlib 8 only by
a uid absent from the variable table, shlib 9 by nobody. -/
def requireProblem : Problem :=
  { jobType := JobType.install,
    provides := [(7, [1]), (8, [5])],
    reqAdd := [], reqDel := [],
    vars := [mkVar (remoteUnit 0) none false false [] 0,
             mkVar { remoteUnit 1 with uid := 1 } none false false [] 0],
    byUid := [(0, 0), (1, 1)], clauses := [], rulesCount := 0 }

theorem require_rule_registration_witness :
    pkg_solve_add_require_rule requireProblem 0 9 = requireProblem ∧
    pkg_solve_add_require_rule requireProblem 0 8 = requireProblem ∧
    (pkg_solve_add_require_rule requireProblem 0 7).clauses =
      requireProblem.clauses ++
        [{ items := ([1].foldl (pkg_solve_handle_provide requireProblem)
            ([({ varIdx := 0, inverse := true } : Lit)], 1)).1, nresolved := 0 }] ∧
    get_var (pkg_solve_add_require_rule requireProblem 0 7) 1 =
      get_var requireProblem 1 :=
  ⟨(require_rule_registration requireProblem 0 9).1 (by decide),
   (require_rule_registration requireProblem 0 8).2.1 [5] (by decide) (by decide),
   ((require_rule_registration requireProblem 0 7).2.2 [1] (by decide) (by decide)
      (by decide)).1,
   ((require_rule_registration requireProblem 0 7).2.2 [1] (by decide) (by decide)
      (by decide)).2.2.2 1 (by decide)⟩
